import Mathlib

/-!
Verification of the document-coordination backend of the SexLab Scene Builder
(`src/src-tauri/src/main.rs`).  The state-changing commands and menu/window
event handlers of `main.rs` are embedded as pure transition functions over an
explicit application state; external collaborators (file readers/writers, the
dialog answers, the window framework's event registry) appear as explicit
parameters or as faithfully modelled registries.
-/

namespace SceneBuilder

/-- `NanoID` (from `project::NanoID`): an opaque unique string token;
`main.rs` accesses its single field as `id.0`. -/
structure NanoID where
  str : String
deriving DecidableEq, Repr

/-- `PositionInfo` (from `project::position_info::PositionInfo`): auxiliary
editor-facing metadata for a Position.  Its fields are never inspected by the
coordination layer, so it is kept as an opaque record. -/
structure PositionInfo where
  data : String
deriving DecidableEq, Repr

/-- `Position` (from `project::position::Position`): the canonical
spatial/actor-slot record; opaque to the coordination layer. -/
structure Position where
  data : String
deriving DecidableEq, Repr

/-- `Stage` (from `project::stage::Stage`): one editable step of a Scene.
`main.rs` reads its `id` and `name` fields. -/
structure Stage where
  id : NanoID
  name : String
deriving DecidableEq, Repr

/-- `Scene` (from `project::scene::Scene`): a unit of content.  `main.rs`
reads `id` and `positions` (a `Vec<PositionInfo>`); the stages list is the
Scene's ordered child Stages. -/
structure Scene where
  id : NanoID
  name : String
  positions : List PositionInfo
  stages : List Stage
deriving DecidableEq, Repr

/-- `Package` (from `project::package::Package`): the project root, with a
display name `pack_name` and the ordered Scene list `scenes`. -/
structure Package where
  pack_name : String
  scenes : List Scene
deriving DecidableEq, Repr

/-- Modelled from the spec: `Package::new` (module `project::package`, not
under `src/`) — "created empty at process start"; empty display name means
"unsaved/untitled". -/
def Package.new : Package :=
  { pack_name := "", scenes := [] }

/-- Modelled from the spec: `Package::reset` (module `project::package`, not
under `src/`) — "replaces the current Package with an empty default Package
unconditionally; never fails".  The spec's dirty flag is "cleared only by a
successful save", so `reset` itself does not touch it. -/
def Package.reset (_p : Package) : Package :=
  Package.new

/-- Modelled from the spec: `Package::save_scene` / `upsert_scene` (module
`project::package`, not under `src/`) — "inserts a new Scene or replaces the
existing one sharing its identifier, preserving sequence position on replace,
appending on insert". -/
def Package.save_scene (p : Package) (s : Scene) : Package :=
  if p.scenes.any (fun c => c.id == s.id) then
    { p with scenes := p.scenes.map (fun c => if c.id = s.id then s else c) }
  else
    { p with scenes := p.scenes ++ [s] }

/-- Modelled from the spec: `Package::discard_scene` / `remove_scene` (module
`project::package`, not under `src/`) — "removes and returns the Scene if
present; returns nothing ... if the identifier is unknown", leaving the
Package unchanged in the latter case. -/
def Package.discard_scene (p : Package) (id : NanoID) :
    Option Scene × Package :=
  match p.scenes.find? (fun c => c.id == id) with
  | some sc => (some sc, { p with scenes := p.scenes.eraseP (fun c => c.id == id) })
  | none => (none, p)

/-- `EditorPayload` (main.rs:387-392): the transient bundle handed to a
stage-editor window. -/
structure EditorPayload where
  scene : NanoID
  stage : Stage
  positions : List PositionInfo
deriving DecidableEq, Repr

/-- Data carried by an emitted event. -/
inductive EventData
  | scenes (ss : List Scene)
  | editor (p : EditorPayload)
  | flag (b : Bool)
deriving DecidableEq, Repr

/-- One emitted event: `target = some label` for an addressed emit
(`emit_to` / `window.emit`), `none` for an app-wide broadcast. -/
structure Emit where
  target : Option String
  event : String
  data : EventData
deriving DecidableEq, Repr

/-- A live stage-editor window (main.rs:400-423): its unique label, its
title, the payload held by the registered one-time `on_request_data`
listener (`none` once the listener has fired and deregistered), and the
`on_data_received` emissions made to this window so far. -/
structure EditorSession where
  label : String
  title : String
  pending : Option EditorPayload
  delivered : List EditorPayload
deriving DecidableEq, Repr

/-- `DEFAULT_MAINWINDOW_TITLE` (main.rs:28). -/
def DEFAULT_MAINWINDOW_TITLE : String := "SexLab Scene Builder"

/-- `MAIN_WINDOW` (main.rs:78). -/
def MAIN_WINDOW : String := "main_window"

/-- The process state handled by `main.rs`: the `PROJECT` mutex contents, the
`EDITED` and `IS_DARKMODE` atomics, the main window's title, the live
stage-editor windows, and the log of emitted events. -/
structure AppState where
  project : Package
  edited : Bool
  darkmode : Bool
  mainTitle : String
  sessions : List EditorSession
  emits : List Emit
deriving Repr

/-- The `ends_with('*')` test used by `mark_as_edited` (main.rs:341) and
`delete_scene` (main.rs:376): whether the title's last character is '*'. -/
def title_has_star (t : String) : Bool :=
  t.data.getLast? == some '*'

/-- The title update of `mark_as_edited` (main.rs:340-344) and `delete_scene`
(main.rs:375-379): append '*' unless the title already ends with it. -/
def star_title (t : String) : String :=
  if title_has_star t then t else t ++ "*"

/-- `mark_as_edited` command (main.rs:338-345): sets the `EDITED` flag and
stars the calling window's title. -/
def mark_as_edited (s : AppState) : AppState :=
  { s with edited := true, mainTitle := star_title s.mainTitle }

/-- `save_scene` command (main.rs:360-363): `mark_as_edited`, then upsert the
Scene into the Package. -/
def save_scene (s : AppState) (scene : Scene) : AppState :=
  let s1 := mark_as_edited s
  { s1 with project := s1.project.save_scene scene }

/-- `delete_scene` command (main.rs:366-383): remove the Scene by id; on
`none` return the InvalidId error with nothing else changed; on success set
the `EDITED` flag and star the title. -/
def delete_scene (s : AppState) (id : NanoID) : Except String Scene × AppState :=
  match s.project.discard_scene id with
  | (some sc, p) =>
    (Except.ok sc,
      { s with project := p, edited := true, mainTitle := star_title s.mainTitle })
  | (none, _) =>
    (Except.error ("Invalid Scene ID: " ++ id.str), s)

/-- `menu_event_listener`, "save" / "save_as" branch (main.rs:244-254).
`Package::save_project` is an external write; its outcome is passed in as
`pAfter` (the package state after the call) and `saveErr` (`none` on `Ok`).
On error the handler returns before touching the `EDITED` flag or the title;
on success it clears the flag and refreshes the title. -/
def menu_save (s : AppState) (pAfter : Package) (saveErr : Option String) : AppState :=
  match saveErr with
  | some _ => { s with project := pAfter }
  | none =>
    { s with project := pAfter, edited := false,
             mainTitle := DEFAULT_MAINWINDOW_TITLE ++ " - " ++ pAfter.pack_name }

/-- The two reload kinds dispatched to `reload_project` (main.rs:80-81). -/
inductive ReloadType
  | new_project
  | open_project
deriving DecidableEq, Repr

/-- `reload_project` (main.rs:139-160): NEW_PROJECT resets the Package;
OPEN_PROJECT replaces it via the external `Package::load_project`, whose
outcome is the parameter `loadRes` (on failure the current Package is left
untouched, per the spec's load contract).  On error the function returns
after logging; on success the window title is refreshed and the scene list
broadcast to the main window.  The `EDITED` flag is not touched. -/
def reload_project (s : AppState) (ty : ReloadType)
    (loadRes : Except String Package) : AppState :=
  let result : Except String Package :=
    match ty with
    | .new_project => Except.ok s.project.reset
    | .open_project => loadRes
  match result with
  | .error _ => s
  | .ok p =>
    let title :=
      if p.pack_name = "" then DEFAULT_MAINWINDOW_TITLE
      else DEFAULT_MAINWINDOW_TITLE ++ " - " ++ p.pack_name
    { s with project := p, mainTitle := title,
             emits := s.emits ++ [⟨some MAIN_WINDOW, "on_project_update", .scenes p.scenes⟩] }

/-- `menu_event_listener`, NEW_PROJECT / OPEN_PROJECT branch
(main.rs:227-243): if the `EDITED` flag is set, a yes/no warning dialog is
shown (second component `true`) and `reload_project` runs only on "yes"
(`answer = true`); with the flag clear the reload runs immediately with no
prompt. -/
def menu_new_or_open (s : AppState) (ty : ReloadType)
    (loadRes : Except String Package) (answer : Bool) : AppState × Bool :=
  if s.edited then
    if answer then (reload_project s ty loadRes, true) else (s, true)
  else (reload_project s ty loadRes, false)

/-- Outcome of the main window's close request. -/
inductive CloseOutcome
  | exited
  | prevented
deriving DecidableEq, Repr

/-- `window_event_listener`, `CloseRequested` branch (main.rs:302-322): with
the `EDITED` flag set a blocking yes/no dialog is shown (second component
`true`); "no" vetoes the close via `prevent_close`, "yes" (or a clear flag,
with no prompt) exits the process.  No state is mutated on any path. -/
def window_close (s : AppState) (answer : Bool) : CloseOutcome × Bool × AppState :=
  if s.edited then
    if answer then (.exited, true, s) else (.prevented, true, s)
  else (.exited, false, s)

/-- The window label used by `open_stage_editor_impl` (main.rs:402). -/
def stage_label (stage : Stage) : String :=
  "stage_editor_" ++ stage.id.str

/-- The window title set by `open_stage_editor_impl` (main.rs:405-412):
the Stage's display name in brackets, or "Untitled" when it is empty. -/
def stage_editor_title (stage : Stage) : String :=
  "Stage Editor [" ++ (if stage.name = "" then "Untitled" else stage.name) ++ "]"

/-- `open_stage_editor_impl` (main.rs:394-424): builds a window whose label
is uniquely derived from the Stage id.  `WebviewWindowBuilder::build` fails
when a window with that label already exists (the framework's unique-label
requirement), and the surrounding `.expect` turns that failure into a panic
of the calling command task, surfaced here as `Except.error`; no window is
created in that case.  On success the new window carries the payload in its
registered one-time `on_request_data` listener. -/
def open_stage_editor_impl (sessions : List EditorSession)
    (payload : EditorPayload) : Except String (List EditorSession) :=
  if sessions.any (fun w => w.label == stage_label payload.stage) then
    Except.error
      ("Failed to create stage editor window for Stage " ++ payload.stage.id.str)
  else
    Except.ok (sessions ++
      [{ label := stage_label payload.stage,
         title := stage_editor_title payload.stage,
         pending := some payload,
         delivered := [] }])

/-- The `on_request_data` ("ready") signal from a stage-editor window hitting
the one-time listener registered at main.rs:421-423: on its first arrival the
payload is emitted to the window as `on_data_received` and the listener
deregisters (framework `once` semantics); with no listener left, a further
signal delivers nothing. -/
def on_request_data (w : EditorSession) : EditorSession :=
  match w.pending with
  | some p => { w with pending := none, delivered := w.delivered ++ [p] }
  | none => w

/-- Modelled from the spec: `Stage::new(&scene)` (module `project::stage`,
not under `src/`) — "created fresh (derived from the owning Scene)": a newly
generated identifier and a default (empty) display name.  The generated
identifier is passed in explicitly as `freshId`. -/
def Stage.new (freshId : NanoID) (_scene : Scene) : Stage :=
  { id := freshId, name := "" }

/-- `open_stage_editor` command (main.rs:426-440): builds the payload from
the Scene — the given Stage, or a fresh one synthesized from the Scene when
omitted — and a snapshot of the Scene's positions, then opens the editor. -/
def open_stage_editor (sessions : List EditorSession) (freshId : NanoID)
    (active_scene : Scene) (stage : Option Stage) : Except String (List EditorSession) :=
  open_stage_editor_impl sessions
    { scene := active_scene.id,
      stage := stage.getD (Stage.new freshId active_scene),
      positions := active_scene.positions }

/-- `open_stage_editor_from` command (main.rs:442-456): like
`open_stage_editor` but seeded with a copy of `copy_stage`. -/
def open_stage_editor_from (sessions : List EditorSession)
    (active_scene : Scene) (copy_stage : Stage) : Except String (List EditorSession) :=
  open_stage_editor_impl sessions
    { scene := active_scene.id,
      stage := copy_stage,
      positions := active_scene.positions }

/-- `stage_save_and_close` command (main.rs:458-480): emits the edited
payload addressed to the main window as `on_stage_saved`, then closes the
calling satellite window.  Neither `PROJECT` nor `EDITED` is read or
written. -/
def stage_save_and_close (s : AppState) (caller : String) (scene : NanoID)
    (positions : List PositionInfo) (stage : Stage) : AppState :=
  { s with
    emits := s.emits ++
      [⟨some MAIN_WINDOW, "on_stage_saved", .editor ⟨scene, stage, positions⟩⟩],
    sessions := s.sessions.filter (fun w => w.label != caller) }

/-- Outcome of `main`'s setup hook (main.rs:104-137): in CLI mode the process
exits with a code before any window exists; in GUI mode the main window is
created and the event loop runs. -/
structure SetupResult where
  exitCode : Option Nat
  mainWindowCreated : Bool
deriving DecidableEq, Repr

/-- CLI dispatch in `main`'s setup (main.rs:106-111): `convert` and `build`
run the respective `cli` entry point (external; outcomes passed in as
`convertRes` / `buildRes`), any other subcommand name is an error. -/
def cli_dispatch (name : String) (convertRes buildRes : Except String Unit) :
    Except String Unit :=
  match name with
  | "convert" => convertRes
  | "build" => buildRes
  | _ => Except.error ("Unrecognized subcommand: " ++ name)

/-- `main`'s setup hook (main.rs:104-137): with a subcommand present the
process exits with `res.is_err() as i32` (0 on `Ok`, 1 on `Err`) before the
main-window builder runs; with none the main window is created. -/
def main_setup (subcommand : Option String)
    (convertRes buildRes : Except String Unit) : SetupResult :=
  match subcommand with
  | some name =>
    { exitCode := some (if (cli_dispatch name convertRes buildRes).isOk then 0 else 1),
      mainWindowCreated := false }
  | none => { exitCode := none, mainWindowCreated := true }

/-! Concrete fixtures used by witnesses and counterexamples. -/

def sampleID : NanoID := ⟨"sc1"⟩

def sampleStageID : NanoID := ⟨"st1"⟩

def sampleScene : Scene :=
  { id := sampleID, name := "SceneA", positions := [], stages := [] }

def sampleStage : Stage :=
  { id := sampleStageID, name := "" }

def samplePayload : EditorPayload :=
  { scene := sampleID, stage := sampleStage, positions := [] }

def sampleSession : EditorSession :=
  { label := "stage_editor_st1", title := "Stage Editor [Untitled]",
    pending := some samplePayload, delivered := [] }

def sampleState : AppState :=
  { project := { pack_name := "Pack", scenes := [sampleScene] },
    edited := false, darkmode := false,
    mainTitle := DEFAULT_MAINWINDOW_TITLE, sessions := [], emits := [] }

def sampleDirty : AppState :=
  { sampleState with edited := true }

/-- C1: dirty-flag lifecycle — `save_scene`, `mark_as_edited`, and a
succeeding `delete_scene` leave the `EDITED` flag true; a save menu action
whose `save_project` returns Ok clears it; one whose `save_project` returns
Err leaves it with its prior value. -/
theorem C1_dirty_flag_lifecycle (s : AppState) (scene : Scene) (id : NanoID)
    (pAfter : Package) (err : String) :
    (save_scene s scene).edited = true ∧
    (mark_as_edited s).edited = true ∧
    ((delete_scene s id).1.isOk = true → (delete_scene s id).2.edited = true) ∧
    (menu_save s pAfter none).edited = false ∧
    (menu_save s pAfter (some err)).edited = s.edited := by
  refine ⟨rfl, rfl, ?_, rfl, rfl⟩
  rcases hd : s.project.discard_scene id with ⟨osc, p⟩
  cases osc <;> simp [delete_scene, hd, Except.isOk, Except.toBool]

/-- C1 witness: the lifecycle at a concrete state whose package contains the
deleted scene, so the succeeding-delete hypothesis is discharged. -/
theorem C1_dirty_flag_lifecycle_witness :
    (delete_scene sampleDirty sampleID).2.edited = true ∧
    (menu_save sampleDirty sampleDirty.project none).edited = false := by
  have h := C1_dirty_flag_lifecycle sampleDirty sampleScene sampleID
    sampleDirty.project "disk full"
  exact ⟨h.2.2.1 (by decide), h.2.2.2.1⟩

/-- C3: Confirmation Gate — with the dirty flag clear, New/Open Project and
the main-window close run immediately with no prompt; with it set, a yes/no
prompt is shown, "yes" runs the operation (reload, resp. process exit) and
"no" runs nothing, leaving the state exactly as it was, with no error. -/
theorem C3_confirmation_gate (s : AppState) (ty : ReloadType)
    (lr : Except String Package) :
    (s.edited = false →
      (∀ ans, menu_new_or_open s ty lr ans = (reload_project s ty lr, false)) ∧
      ∀ ans, window_close s ans = (.exited, false, s)) ∧
    (s.edited = true →
      menu_new_or_open s ty lr true = (reload_project s ty lr, true) ∧
      menu_new_or_open s ty lr false = (s, true) ∧
      window_close s true = (.exited, true, s) ∧
      window_close s false = (.prevented, true, s)) := by
  constructor <;> intro h <;>
    simp [menu_new_or_open, window_close, h]

/-- C3 witness: the gate evaluated at a clean state (no prompt) and at a
dirty state (prompt shown, "no" leaves the state untouched). -/
theorem C3_confirmation_gate_witness :
    menu_new_or_open sampleState .new_project (Except.error "unused") true
      = (reload_project sampleState .new_project (Except.error "unused"), false) ∧
    menu_new_or_open sampleDirty .new_project (Except.error "unused") false
      = (sampleDirty, true) ∧
    window_close sampleDirty false = (.prevented, true, sampleDirty) := by
  have h0 := C3_confirmation_gate sampleState .new_project (Except.error "unused")
  have h1 := C3_confirmation_gate sampleDirty .new_project (Except.error "unused")
  exact ⟨(h0.1 rfl).1 true, (h1.2 rfl).2.1, (h1.2 rfl).2.2.2⟩

/-- C4 counterexample: from a dirty state, confirming "New Project" does
reset the Package to the empty default, but the dirty flag still reads true
afterwards — not false as the claim states (`reload_project` never touches
the `EDITED` flag). -/
theorem C4_counterexample :
    (menu_new_or_open sampleDirty .new_project (Except.error "unused") true).1.project
      = Package.new ∧
    (menu_new_or_open sampleDirty .new_project (Except.error "unused") true).1.edited
      = true := by
  constructor <;> rfl

/-- C4 (amended): from a dirty state, confirming "New Project" resets the
Package to the empty default while the dirty flag keeps its prior value
(remains true); answering "no" leaves the Package and the dirty flag exactly
as they were. -/
theorem C4_new_project_confirmed (s : AppState) (lr : Except String Package)
    (h : s.edited = true) :
    (menu_new_or_open s .new_project lr true).1.project = Package.new ∧
    (menu_new_or_open s .new_project lr true).1.edited = true ∧
    (menu_new_or_open s .new_project lr false).1 = s := by
  refine ⟨?_, ?_, ?_⟩ <;>
    simp [menu_new_or_open, reload_project, Package.reset, Package.new, h]

/-- C4 witness: the amended statement at the concrete dirty fixture. -/
theorem C4_new_project_confirmed_witness :
    (menu_new_or_open sampleDirty .new_project (Except.error "unused") true).1.edited
        = true ∧
    (menu_new_or_open sampleDirty .new_project (Except.error "unused") false).1
        = sampleDirty := by
  have h := C4_new_project_confirmed sampleDirty (Except.error "unused") rfl
  exact ⟨h.2.1, h.2.2⟩

/-- C9: CLI contract — any invocation with a subcommand creates no window and
exits with 0 exactly when the dispatched result is Ok and with 1 otherwise;
an unrecognized subcommand name is an Err, hence exits non-zero. -/
theorem C9_cli_exit_codes (name : String)
    (convertRes buildRes : Except String Unit) :
    (main_setup (some name) convertRes buildRes).mainWindowCreated = false ∧
    ((cli_dispatch name convertRes buildRes).isOk = true →
      (main_setup (some name) convertRes buildRes).exitCode = some 0) ∧
    ((cli_dispatch name convertRes buildRes).isOk = false →
      (main_setup (some name) convertRes buildRes).exitCode = some 1 ∧ (1 : Nat) ≠ 0) ∧
    (name ≠ "convert" → name ≠ "build" →
      (main_setup (some name) convertRes buildRes).exitCode = some 1) := by
  refine ⟨rfl, ?_, ?_, ?_⟩
  · intro h; simp [main_setup, h]
  · intro h; simp [main_setup, h]
  · intro h1 h2
    simp [main_setup, cli_dispatch, h1, h2, Except.isOk, Except.toBool]

/-- C9 witness: a successful `convert`, a failing `build`, and an
unrecognized subcommand, each at concrete arguments. -/
theorem C9_cli_exit_codes_witness :
    (main_setup (some "convert") (Except.ok ()) (Except.ok ())).exitCode = some 0 ∧
    (main_setup (some "build") (Except.ok ()) (Except.error "bad args")).exitCode
      = some 1 ∧
    (main_setup (some "frobnicate") (Except.ok ()) (Except.ok ())).exitCode
      = some 1 := by
  refine ⟨(C9_cli_exit_codes "convert" (Except.ok ()) (Except.ok ())).2.1 rfl,
    ((C9_cli_exit_codes "build" (Except.ok ()) (Except.error "bad args")).2.2.1 rfl).1,
    (C9_cli_exit_codes "frobnicate" (Except.ok ()) (Except.ok ())).2.2.2
      (by decide) (by decide)⟩

lemma title_has_star_append_star (t : String) :
    title_has_star (t ++ "*") = true := by
  have hd : (t ++ "*").data = t.data ++ ['*'] := rfl
  simp [title_has_star, hd]

/-- C10: the title-star update of `mark_as_edited` and `delete_scene`
appends '*' only when the title does not already end with '*', and is
idempotent: repeated dirty-marking leaves the title unchanged after the
first star. -/
theorem C10_title_star_idempotent (t : String) :
    (title_has_star t = true → star_title t = t) ∧
    (title_has_star t = false → star_title t = t ++ "*") ∧
    star_title (star_title t) = star_title t := by
  refine ⟨fun h => by simp [star_title, h], fun h => by simp [star_title, h], ?_⟩
  by_cases h : title_has_star t = true
  · simp [star_title, h]
  · have h2 : title_has_star t = false := by simpa using h
    simp [star_title, h2, title_has_star_append_star]

/-- C10 witness: starting from the default main-window title, the first
marking appends one star and the second changes nothing. -/
theorem C10_title_star_idempotent_witness :
    star_title "SexLab Scene Builder" = "SexLab Scene Builder" ++ "*" ∧
    star_title (star_title "SexLab Scene Builder")
      = star_title "SexLab Scene Builder" := by
  have h := C10_title_star_idempotent "SexLab Scene Builder"
  exact ⟨h.2.1 (by decide), h.2.2⟩

/-- C2: one-shot handshake — every window created by
`open_stage_editor_impl` starts with no deliveries; its first
`on_request_data` signal delivers the payload exactly once, and a second
signal changes nothing (delivers no further payload). -/
theorem C2_one_shot_handshake (sessions : List EditorSession)
    (payload : EditorPayload) (rest : List EditorSession)
    (h : open_stage_editor_impl sessions payload = Except.ok rest) :
    ∃ w, rest = sessions ++ [w] ∧ w.delivered = [] ∧
      (on_request_data w).delivered = [payload] ∧
      on_request_data (on_request_data w) = on_request_data w := by
  unfold open_stage_editor_impl at h
  split at h
  · simp at h
  · cases h
    exact ⟨_, rfl, rfl, rfl, rfl⟩

/-- C2 witness: a concrete editor opened from no windows, its created
session, and the one-shot delivery at that session. -/
theorem C2_one_shot_handshake_witness :
    ∃ w, [sampleSession] = ([] : List EditorSession) ++ [w] ∧ w.delivered = [] ∧
      (on_request_data w).delivered = [samplePayload] ∧
      on_request_data (on_request_data w) = on_request_data w :=
  C2_one_shot_handshake [] samplePayload [sampleSession] rfl

/-- C5: `delete_scene` error atomicity — for an id matching no Scene the
command returns the InvalidId error with the whole state (Package, dirty
flag, title, windows, emits) exactly as before; for a present id it returns
a Scene of that id taken from the Package, shrinking the Scene list by one
and setting the dirty flag. -/
theorem C5_delete_scene_atomicity (s : AppState) (id : NanoID) :
    ((∀ sc ∈ s.project.scenes, sc.id ≠ id) →
      delete_scene s id = (Except.error ("Invalid Scene ID: " ++ id.str), s)) ∧
    (∀ sc, sc ∈ s.project.scenes → sc.id = id →
      ∃ sc2, (delete_scene s id).1 = Except.ok sc2 ∧ sc2.id = id ∧
        sc2 ∈ s.project.scenes ∧
        (delete_scene s id).2.project.scenes.length + 1
          = s.project.scenes.length ∧
        (delete_scene s id).2.edited = true) := by
  constructor
  · intro h
    have hf : s.project.scenes.find? (fun c => c.id == id) = none := by
      rw [List.find?_eq_none]
      intro x hx
      simp [h x hx]
    simp [delete_scene, Package.discard_scene, hf]
  · intro sc hmem hid
    have hs : (s.project.scenes.find? (fun c => c.id == id)).isSome := by
      rw [List.find?_isSome]
      exact ⟨sc, hmem, by simp [hid]⟩
    rcases Option.isSome_iff_exists.mp hs with ⟨sc2, hf⟩
    have hp := List.find?_some hf
    have hlen := List.length_eraseP_add_one (p := fun c => c.id == id)
      (List.mem_of_find?_eq_some hf) hp
    refine ⟨sc2, ?_, by simpa using hp, List.mem_of_find?_eq_some hf, ?_, ?_⟩ <;>
      simp [delete_scene, Package.discard_scene, hf, hlen]

/-- C5 witness: an unknown id is rejected leaving the fixture state intact,
and the present id is removed with the list shrinking by one. -/
theorem C5_delete_scene_atomicity_witness :
    delete_scene sampleState ⟨"nope"⟩
      = (Except.error ("Invalid Scene ID: " ++ "nope"), sampleState) ∧
    ∃ sc2, (delete_scene sampleState sampleID).1 = Except.ok sc2 ∧
      sc2.id = sampleID ∧ sc2 ∈ sampleState.project.scenes ∧
      (delete_scene sampleState sampleID).2.project.scenes.length + 1
        = sampleState.project.scenes.length ∧
      (delete_scene sampleState sampleID).2.edited = true := by
  refine ⟨(C5_delete_scene_atomicity sampleState ⟨"nope"⟩).1 (by decide),
    (C5_delete_scene_atomicity sampleState sampleID).2 sampleScene (by decide) rfl⟩

/-- C6: no duplicate editor window — when a live window already carries the
label derived from the Stage id, `open_stage_editor_impl` rejects the
request with an error (the failed build panics only the requesting command
task) and registers nothing; whenever it succeeds, no window with that label
existed and exactly one exists afterwards. -/
theorem C6_no_duplicate_editor (sessions : List EditorSession)
    (payload : EditorPayload) :
    ((sessions.any fun w => w.label == stage_label payload.stage) = true →
      open_stage_editor_impl sessions payload = Except.error
        ("Failed to create stage editor window for Stage "
          ++ payload.stage.id.str)) ∧
    (∀ rest, open_stage_editor_impl sessions payload = Except.ok rest →
      (∀ w ∈ sessions, w.label ≠ stage_label payload.stage) ∧
      (rest.countP fun w => w.label == stage_label payload.stage) = 1) := by
  constructor
  · intro h
    simp [open_stage_editor_impl, h]
  · intro rest h
    unfold open_stage_editor_impl at h
    split at h
    · simp at h
    · rename_i hany
      cases h
      rw [Bool.not_eq_true, List.any_eq_false] at hany
      constructor
      · intro w hw
        simpa using hany w hw
      · rw [List.countP_append, List.countP_eq_zero.mpr hany]
        simp

/-- C6 witness: reopening the Stage already shown in the fixture session is
rejected, and a fresh open from no windows yields exactly one window for the
label. -/
theorem C6_no_duplicate_editor_witness :
    open_stage_editor_impl [sampleSession] samplePayload = Except.error
      ("Failed to create stage editor window for Stage "
        ++ samplePayload.stage.id.str) ∧
    (List.countP (fun w => w.label == stage_label samplePayload.stage)
      [sampleSession]) = 1 := by
  refine ⟨(C6_no_duplicate_editor [sampleSession] samplePayload).1 (by decide),
    ((C6_no_duplicate_editor [] samplePayload).2 [sampleSession] rfl).2⟩

/-- C7: `stage_save_and_close` frame — the command leaves the Package, the
dirty flag, and the darkmode flag untouched, appends exactly one
`on_stage_saved` emit addressed to the main window carrying the edited
payload, and closes the calling satellite window. -/
theorem C7_stage_save_and_close_frame (s : AppState) (caller : String)
    (scene : NanoID) (positions : List PositionInfo) (stage : Stage) :
    (stage_save_and_close s caller scene positions stage).project = s.project ∧
    (stage_save_and_close s caller scene positions stage).edited = s.edited ∧
    (stage_save_and_close s caller scene positions stage).darkmode = s.darkmode ∧
    (stage_save_and_close s caller scene positions stage).emits = s.emits ++
      [⟨some MAIN_WINDOW, "on_stage_saved",
        EventData.editor ⟨scene, stage, positions⟩⟩] ∧
    ∀ w ∈ (stage_save_and_close s caller scene positions stage).sessions,
      w.label ≠ caller := by
  refine ⟨rfl, rfl, rfl, rfl, ?_⟩
  intro w hw
  simp only [stage_save_and_close, List.mem_filter, bne_iff_ne] at hw
  exact hw.2

/-- C7 witness: saving from a window other than the fixture session leaves
the fixture session open and its label distinct from the caller's. -/
theorem C7_stage_save_and_close_frame_witness :
    (stage_save_and_close { sampleState with sessions := [sampleSession] }
      "other" sampleID [] sampleStage).edited = sampleState.edited ∧
    sampleSession.label ≠ "other" := by
  have h := C7_stage_save_and_close_frame
    { sampleState with sessions := [sampleSession] } "other" sampleID [] sampleStage
  exact ⟨h.2.1, h.2.2.2.2 sampleSession (by decide)⟩

/-- C8: `open_stage_editor` defaults — with the stage argument omitted, the
created window holds a payload whose Stage is freshly synthesized from the
Scene and whose positions are a snapshot of the Scene's, and its title shows
the placeholder "Untitled" since a fresh Stage's display name is empty; a
nonempty display name appears verbatim in the title. -/
theorem C8_open_stage_editor_defaults (sessions : List EditorSession)
    (freshId : NanoID) (active_scene : Scene) (rest : List EditorSession)
    (h : open_stage_editor sessions freshId active_scene none = Except.ok rest) :
    (∃ w, rest = sessions ++ [w] ∧
      w.pending = some { scene := active_scene.id,
                         stage := Stage.new freshId active_scene,
                         positions := active_scene.positions } ∧
      w.title = "Stage Editor [" ++ "Untitled" ++ "]") ∧
    ∀ st : Stage, st.name ≠ "" →
      stage_editor_title st = "Stage Editor [" ++ st.name ++ "]" := by
  constructor
  · unfold open_stage_editor open_stage_editor_impl at h
    split at h
    · simp at h
    · cases h
      exact ⟨_, rfl, rfl, rfl⟩
  · intro st hst
    simp [stage_editor_title, hst]

/-- C8 witness: a concrete omitted-stage open from no windows produces the
fixture session with the synthesized payload and the "Untitled" title. -/
theorem C8_open_stage_editor_defaults_witness :
    (∃ w, [sampleSession] = ([] : List EditorSession) ++ [w] ∧
      w.pending = some { scene := sampleScene.id,
                         stage := Stage.new sampleStageID sampleScene,
                         positions := sampleScene.positions } ∧
      w.title = "Stage Editor [" ++ "Untitled" ++ "]") ∧
    ∀ st : Stage, st.name ≠ "" →
      stage_editor_title st = "Stage Editor [" ++ st.name ++ "]" :=
  C8_open_stage_editor_defaults [] sampleStageID sampleScene [sampleSession] rfl

end SceneBuilder
